import Mathlib

/-!
Verification of the channel watering/alarm state machine, color
interpolation and button navigation of `examples/new/monitor.py`
(grow-python repository), shallowly embedded in Lean 4.

Conventions of the embedding:
* Python floats (saturation, thresholds, timestamps) become `ℚ`; the
  arithmetic the claims exercise is exact, so no rounding model is needed.
* `time.time()` is passed in explicitly as a `now : ℚ` argument.
* Side effects (pump doses) are returned as explicit `Option DoseCmd`
  values instead of being performed; log lines are pure text and dropped.
* The `Moisture` sensor is an external collaborator: `update()` reads
  `self.sensor.saturation` once, which we model by passing the reading
  `sat : ℚ` as an argument.
-/

set_option autoImplicit false

namespace Monitor

/-- Python `int()` applied to a rational: truncation toward zero
(`int(2.7) = 2`, `int(-2.7) = -2`). -/
def pyInt (q : ℚ) : ℤ :=
  if q < 0 then ⌈q⌉ else ⌊q⌋

/-- An RGB color, one integer per component (the source stores 3-tuples of
ints). -/
abbrev RGB := ℤ × ℤ × ℤ

/-- Palette `Channel.bar_colours` from the source. -/
def bar_colours : List RGB :=
  [(192, 225, 254),  -- Blue
   (196, 255, 209),  -- Green
   (255, 243, 192),  -- Yellow
   (254, 192, 192)]  -- Red

/-- Palette `Channel.label_colours` from the source. -/
def label_colours : List RGB :=
  [(32, 137, 251),   -- Blue
   (100, 255, 124),  -- Green
   (254, 219, 82),   -- Yellow
   (254, 82, 82)]    -- Red

/-- Function `Channel.indicator_color(value, r)` from the source.  The Python
default `r=None` selects `bar_colours`; here the palette is always passed
explicitly.  Python's `r[-1]` / `r[0]` / `r[a]` / `r[b]` indexing is
rendered with `getLastD` / `headD` / `getD` (the claims only exercise
in-range indices, where these agree with Python). -/
def indicator_color (r : List RGB) (value : ℚ) : RGB :=
  let v : ℚ := 1 - value
  if v = 1 then r.getLastD (0, 0, 0)
  else if v = 0 then r.headD (0, 0, 0)
  else
    let scaled : ℚ := v * ((r.length : ℤ) - 1 : ℤ)
    let a : ℤ := ⌊scaled⌋
    let b : ℤ := a + 1
    let blend : ℚ := scaled - a
    let ca := r.getD a.toNat (0, 0, 0)
    let cb := r.getD b.toNat (0, 0, 0)
    (pyInt (((cb.1 - ca.1 : ℤ) : ℚ) * blend + (ca.1 : ℚ)),
     pyInt (((cb.2.1 - ca.2.1 : ℤ) : ℚ) * blend + (ca.2.1 : ℚ)),
     pyInt (((cb.2.2 - ca.2.2 : ℤ) : ℚ) * blend + (ca.2.2 : ℚ)))

/-- Modelled from the spec: the interpolation step as §4.1/§8 word it,
with `round(lerp(...))` on each component.  Used only to compare against
`indicator_color`, whose source applies `int()` (truncation) instead. -/
def indicator_color_rounded (r : List RGB) (value : ℚ) : RGB :=
  let v : ℚ := 1 - value
  if v = 1 then r.getLastD (0, 0, 0)
  else if v = 0 then r.headD (0, 0, 0)
  else
    let scaled : ℚ := v * ((r.length : ℤ) - 1 : ℤ)
    let a : ℤ := ⌊scaled⌋
    let b : ℤ := a + 1
    let blend : ℚ := scaled - a
    let ca := r.getD a.toNat (0, 0, 0)
    let cb := r.getD b.toNat (0, 0, 0)
    (round (((cb.1 - ca.1 : ℤ) : ℚ) * blend + (ca.1 : ℚ)),
     round (((cb.2.1 - ca.2.1 : ℤ) : ℚ) * blend + (ca.2.1 : ℚ)),
     round (((cb.2.2 - ca.2.2 : ℤ) : ℚ) * blend + (ca.2.2 : ℚ)))

/-- The interior case of `indicator_color` written out as the claim
describes the algorithm, but with the source's `int()` truncation in
place of rounding: scale `v = 1 - value` into `[0, len(r) - 1]`, floor to
get the lower index `a`, blend toward index `a + 1` by the fractional
remainder. -/
def indicator_color_interior (r : List RGB) (value : ℚ) : RGB :=
  let v : ℚ := 1 - value
  let scaled : ℚ := v * ((r.length : ℤ) - 1 : ℤ)
  let a : ℤ := ⌊scaled⌋
  let blend : ℚ := scaled - a
  let ca := r.getD a.toNat (0, 0, 0)
  let cb := r.getD (a + 1).toNat (0, 0, 0)
  (pyInt (((cb.1 - ca.1 : ℤ) : ℚ) * blend + (ca.1 : ℚ)),
   pyInt (((cb.2.1 - ca.2.1 : ℤ) : ℚ) * blend + (ca.2.1 : ℚ)),
   pyInt (((cb.2.2 - ca.2.2 : ℤ) : ℚ) * blend + (ca.2.2 : ℚ)))

/-- A pump dose command, as handed to `self.pump.dose(pump_speed,
pump_time, blocking=False)`.  The pump is an external collaborator, so a
dose is recorded as data rather than performed. -/
structure DoseCmd where
  speed : ℚ
  time : ℚ
  deriving Repr, DecidableEq

/-- The state of one `Channel` object: its identity, configuration and
runtime state.  The `sensor` and `pump` collaborators are external
(sensor readings enter `update` as an argument; doses leave as
`DoseCmd` values), and the purely cosmetic `title`/`icon` fields are
omitted. -/
structure Channel where
  channel : ℕ
  water_level : ℚ := 1/2
  alarm_level : ℚ := 1/2
  auto_water : Bool := false
  pump_speed : ℚ := 7/10
  pump_time : ℚ := 7/10
  watering_delay : ℚ := 30
  wet_point : ℚ := 7/10
  dry_point : ℚ := 267/10
  last_dose : ℚ
  enabled : Bool := false
  alarm : Bool := false
  deriving Repr, DecidableEq

/-- Method `Channel.water()` from the source, with `time.time()` passed in as
`now`.  Returns the Python return value, the updated channel and the dose
issued (if any). -/
def Channel.water (ch : Channel) (now : ℚ) : Bool × Channel × Option DoseCmd :=
  if ch.auto_water = false then (false, ch, none)
  else if now - ch.last_dose > ch.watering_delay then
    (true, { ch with last_dose := now }, some ⟨ch.pump_speed, ch.pump_time⟩)
  else (false, ch, none)

/-- Method `Channel.update()` from the source.  `sat` is the value read from
`self.sensor.saturation`, `now` is `time.time()` as seen inside
`self.water()`.  The informational/warning log lines are pure output and
dropped. -/
def Channel.update (ch : Channel) (sat now : ℚ) : Channel × Option DoseCmd :=
  if ch.enabled = false then (ch, none)
  else if sat < ch.water_level then
    let wd := ch.water now
    let ch1 := wd.2.1
    let ch2 :=
      if sat < ch1.alarm_level ∧ ch1.alarm = false then
        { ch1 with alarm := true }
      else ch1
    (ch2, wd.2.2)
  else (ch, none)

/-- Folding `update()` over a sequence of ticks, each tick supplying a
sensor reading and a timestamp; dose outputs are discarded. -/
def runTicks (ch : Channel) (ticks : List (ℚ × ℚ)) : Channel :=
  ticks.foldl (fun c t => (c.update t.1 t.2).1) ch

/-- A settings-file section for one channel, as consumed by
`Channel.update_from_yml`.  Each recognized key is `some v` when present
in the YAML mapping and `none` when absent (`config.get(key, default)`
keeps the channel's current value in that case).  Keys the code never
looks up are collected in `unknown`; `update_from_yml` ignores them.
The commented-out `icon` handling in the source is omitted. -/
structure YmlConfig where
  pump_speed : Option ℚ := none
  pump_time : Option ℚ := none
  alarm_level : Option ℚ := none
  water_level : Option ℚ := none
  watering_delay : Option ℚ := none
  auto_water : Option Bool := none
  enabled : Option Bool := none
  wet_point : Option ℚ := none
  dry_point : Option ℚ := none
  unknown : List String := []
  deriving Repr, DecidableEq

/-- Method `Channel.update_from_yml(config)` from the source: `config` is `none`
when the settings file has no section for this channel (`config.get(...)`
returned `None`), in which case nothing changes; otherwise each
recognized key present in the mapping overwrites the field and each
absent key leaves the current value. -/
def Channel.update_from_yml (ch : Channel) (config : Option YmlConfig) : Channel :=
  match config with
  | none => ch
  | some c =>
    { ch with
      pump_speed := c.pump_speed.getD ch.pump_speed
      pump_time := c.pump_time.getD ch.pump_time
      alarm_level := c.alarm_level.getD ch.alarm_level
      water_level := c.water_level.getD ch.water_level
      watering_delay := c.watering_delay.getD ch.watering_delay
      auto_water := c.auto_water.getD ch.auto_water
      enabled := c.enabled.getD ch.enabled
      wet_point := c.wet_point.getD ch.wet_point
      dry_point := c.dry_point.getD ch.dry_point }

/-- Shape of one entry of the module-level `views` list: `MainView` is a
single renderable, each `(DetailView, EditView)` pair is a tuple whose
length Python's `len(view)` reports. -/
inductive ViewT where
  | single
  | paged (n : ℕ)
  deriving Repr, DecidableEq

/-- The module-level `views` list: `MainView`, then one
`(DetailView, EditView)` pair per channel. -/
def views : List ViewT :=
  [ViewT.single, ViewT.paged 2, ViewT.paged 2, ViewT.paged 2]

/-- Number of sub-views of a view: Python's `len(view)` for a tuple; a
single view has exactly one renderable (its sub-view index must stay 0). -/
def subviewCount : ViewT → ℕ
  | ViewT.single => 1
  | ViewT.paged n => n

/-- The four button labels.  `handle_button(pin)` maps the GPIO pin to a
label via `BUTTONS.index(pin)` / `LABELS[index]`; the embedding starts
from the label. -/
inductive Label where
  | A
  | B
  | X
  | Y
  deriving Repr, DecidableEq

/-- The module-level mutable state `handle_button` touches:
`current_view`, `current_subview`, the global `alarm` flag (only ever
assigned `False` by button B; only read by commented-out beep code) and
the `channels` list. -/
structure AppState where
  current_view : ℕ := 0
  current_subview : ℕ := 0
  global_alarm : Bool := false
  channels : List Channel
  deriving Repr, DecidableEq

/-- Handler `handle_button(pin)` from the source, per label:
`A` advances `current_view` modulo `len(views)` when `current_subview`
is 0; `B` clears the global and every channel's `alarm`; `X` cycles
`current_subview` modulo the tuple length when the current view is a
tuple; `Y` does nothing.  Python's `views[current_view]` is rendered with
`getD` (in range whenever the navigation invariant holds). -/
def handle_button (st : AppState) (label : Label) : AppState :=
  match label with
  | Label.A =>
    if st.current_subview = 0 then
      { st with
        current_view := (st.current_view + 1) % views.length
        current_subview := 0 }
    else st
  | Label.B =>
    { st with
      global_alarm := false
      channels := st.channels.map fun ch => { ch with alarm := false } }
  | Label.X =>
    match views.getD st.current_view ViewT.single with
    | ViewT.paged n => { st with current_subview := (st.current_subview + 1) % n }
    | ViewT.single => st
  | Label.Y => st

/-- The navigation bounds invariant: `current_view` indexes into `views`
and `current_subview` indexes into the current view's sub-views. -/
def NavOK (st : AppState) : Prop :=
  st.current_view < views.length ∧
    st.current_subview < subviewCount (views.getD st.current_view ViewT.single)

instance (st : AppState) : Decidable (NavOK st) := by
  unfold NavOK; infer_instance

/-- The configuration and identity fields of a channel (everything the
navigation handlers must leave untouched: thresholds, pump parameters,
cooldown bookkeeping, calibration, flags — all fields except `alarm`). -/
def Channel.config (ch : Channel) :
    ℕ × ℚ × ℚ × Bool × ℚ × ℚ × ℚ × ℚ × ℚ × ℚ × Bool :=
  (ch.channel, ch.water_level, ch.alarm_level, ch.auto_water, ch.pump_speed,
   ch.pump_time, ch.watering_delay, ch.wet_point, ch.dry_point, ch.last_dose,
   ch.enabled)

/-! Helper lemmas about `Channel.water` and `Channel.update` -/

/-- Rewriting `water()` as a single case split: it doses exactly when `auto_water`
is set and the cooldown has elapsed. -/
theorem water_eq (ch : Channel) (now : ℚ) :
    ch.water now =
      if ch.auto_water = true ∧ now - ch.last_dose > ch.watering_delay then
        (true, { ch with last_dose := now }, some ⟨ch.pump_speed, ch.pump_time⟩)
      else (false, ch, none) := by
  unfold Channel.water
  rcases h : ch.auto_water <;> simp [h]

/-- The dose emitted by `update()`: exactly when the channel is enabled,
saturation is below `water_level`, `auto_water` is set and the cooldown
has elapsed. -/
theorem update_snd (ch : Channel) (sat now : ℚ) :
    (ch.update sat now).2 =
      if ch.enabled = true ∧ sat < ch.water_level ∧ ch.auto_water = true ∧
          now - ch.last_dose > ch.watering_delay then
        some ⟨ch.pump_speed, ch.pump_time⟩
      else none := by
  unfold Channel.update
  rw [water_eq]
  rcases he : ch.enabled <;> split_ifs <;> simp_all

/-- Field `last_dose` after `update()`: set to `now` exactly when a dose fired,
otherwise untouched. -/
theorem update_fst_last_dose (ch : Channel) (sat now : ℚ) :
    ((ch.update sat now).1).last_dose =
      if ch.enabled = true ∧ sat < ch.water_level ∧ ch.auto_water = true ∧
          now - ch.last_dose > ch.watering_delay then now
      else ch.last_dose := by
  unfold Channel.update
  rw [water_eq]
  rcases he : ch.enabled <;> split_ifs <;> simp_all <;> split_ifs <;> simp_all

/-- The alarm flag after `update()`: it is the old flag OR-ed with this
tick's trigger condition (enabled, below `water_level`, below
`alarm_level`); `update()` never lowers it. -/
theorem update_fst_alarm (ch : Channel) (sat now : ℚ) :
    ((ch.update sat now).1).alarm =
      (ch.alarm ||
        (ch.enabled && (decide (sat < ch.water_level) && decide (sat < ch.alarm_level)))) := by
  unfold Channel.update
  rw [water_eq]
  rcases he : ch.enabled <;> rcases ha : ch.alarm <;> split_ifs <;> simp_all <;>
    split_ifs <;> simp_all

/-- `update()` leaves every configuration field unchanged (all fields
except `alarm` and `last_dose`). -/
theorem update_fst_config (ch : Channel) (sat now : ℚ) :
    ((ch.update sat now).1).channel = ch.channel ∧
    ((ch.update sat now).1).water_level = ch.water_level ∧
    ((ch.update sat now).1).alarm_level = ch.alarm_level ∧
    ((ch.update sat now).1).auto_water = ch.auto_water ∧
    ((ch.update sat now).1).pump_speed = ch.pump_speed ∧
    ((ch.update sat now).1).pump_time = ch.pump_time ∧
    ((ch.update sat now).1).watering_delay = ch.watering_delay ∧
    ((ch.update sat now).1).wet_point = ch.wet_point ∧
    ((ch.update sat now).1).dry_point = ch.dry_point ∧
    ((ch.update sat now).1).enabled = ch.enabled := by
  unfold Channel.update
  rw [water_eq]
  split_ifs <;> simp_all <;> split_ifs <;> simp_all

/-! Claim C1 - alarm latch -/

/-- C1.  Alarm latch: a single `update()` tick never clears the `alarm`
flag (it can only go from `false` to `true`), so no sequence of ticks
clears it either; the acknowledge button (B) clears it on every channel,
and no other button touches the channels at all. -/
theorem alarm_latch :
    (∀ (ch : Channel) (sat now : ℚ), ch.alarm = true →
       ((ch.update sat now).1).alarm = true) ∧
    (∀ (ch : Channel) (ticks : List (ℚ × ℚ)), ch.alarm = true →
       (runTicks ch ticks).alarm = true) ∧
    (∀ st : AppState, ∀ ch ∈ (handle_button st Label.B).channels,
       ch.alarm = false) ∧
    (∀ (st : AppState) (l : Label), l ≠ Label.B →
       (handle_button st l).channels = st.channels) := by
  have single : ∀ (ch : Channel) (sat now : ℚ), ch.alarm = true →
      ((ch.update sat now).1).alarm = true := by
    intro ch sat now h
    rw [update_fst_alarm, h]
    simp
  refine ⟨single, ?_, ?_, ?_⟩
  · intro ch ticks
    induction ticks generalizing ch with
    | nil => intro h; exact h
    | cons t ts ih =>
      intro h
      exact ih _ (single ch t.1 t.2 h)
  · intro st ch hch
    simp only [handle_button, List.mem_map] at hch
    obtain ⟨ch₀, -, rfl⟩ := hch
    rfl
  · intro st l hl
    cases l with
    | A =>
      simp only [handle_button]
      split_ifs <;> rfl
    | B => exact absurd rfl hl
    | X =>
      simp only [handle_button]
      cases views.getD st.current_view ViewT.single <;> rfl
    | Y => rfl

/-- A concrete enabled channel with its alarm already raised, used as a
witness input. -/
def chAlarmed : Channel :=
  { channel := 1, last_dose := 0, enabled := true, auto_water := true,
    alarm := true }

/-- Witness for C1: the alarm raised on `chAlarmed` survives two ticks
with saturation back above every threshold. -/
theorem alarm_latch_witness :
    (runTicks chAlarmed [(1, 100), (1, 200)]).alarm = true :=
  alarm_latch.2.1 chAlarmed [(1, 100), (1, 200)] rfl

/-! Claim C2 - watering cooldown -/

/-- C2.  Watering cooldown: for an enabled auto-watering channel with
saturation below `water_level`, a tick doses iff the time since
`last_dose` exceeds `watering_delay`; a dose (on any tick at all) implies
the cooldown had elapsed and resets `last_dose` to the tick's time; a
tick without a dose leaves `last_dose` alone; hence the very next tick
within `watering_delay` of a dose never doses again. -/
theorem watering_cooldown :
    (∀ (ch : Channel) (sat now : ℚ), ch.enabled = true → ch.auto_water = true →
       sat < ch.water_level →
       (((ch.update sat now).2).isSome = true ↔
         now - ch.last_dose > ch.watering_delay)) ∧
    (∀ (ch : Channel) (sat now : ℚ), ((ch.update sat now).2).isSome = true →
       now - ch.last_dose > ch.watering_delay ∧
       ((ch.update sat now).1).last_dose = now) ∧
    (∀ (ch : Channel) (sat now : ℚ), (ch.update sat now).2 = none →
       ((ch.update sat now).1).last_dose = ch.last_dose) ∧
    (∀ (ch : Channel) (sat1 now1 sat2 now2 : ℚ),
       ((ch.update sat1 now1).2).isSome = true →
       now2 - now1 ≤ ((ch.update sat1 now1).1).watering_delay →
       ((ch.update sat1 now1).1.update sat2 now2).2 = none) := by
  refine ⟨?_, ?_, ?_, ?_⟩
  · intro ch sat now he ha hs
    rw [update_snd]
    split_ifs with h
    · simpa using h.2.2.2
    · simp only [Option.isSome_none, Bool.false_eq_true, false_iff]
      intro ht
      exact h ⟨he, hs, ha, ht⟩
  · intro ch sat now hd
    rw [update_snd] at hd
    rw [update_fst_last_dose]
    split_ifs at hd ⊢ with h
    · exact ⟨h.2.2.2, rfl⟩
    · simp at hd
  · intro ch sat now hd
    rw [update_snd] at hd
    rw [update_fst_last_dose]
    split_ifs at hd ⊢
    simp_all
  · intro ch sat1 now1 sat2 now2 hd hle
    set ch1 := (ch.update sat1 now1).1 with hch1
    have hdose : ch1.last_dose = now1 := by
      rw [hch1, update_fst_last_dose]
      rw [update_snd] at hd
      split_ifs at hd ⊢ with h
      · rfl
      · simp at hd
    rw [update_snd]
    split_ifs with h
    · exfalso
      have := h.2.2.2
      rw [hdose] at this
      linarith
    · rfl

/-- A concrete enabled auto-watering channel whose cooldown has elapsed,
used as a witness input. -/
def chThirsty : Channel :=
  { channel := 1, last_dose := 0, enabled := true, auto_water := true }

/-- Witness for C2: `chThirsty` at saturation 1/4 doses at time 31
(just past the 30-second delay). -/
theorem watering_cooldown_witness :
    ((chThirsty.update (1/4) 31).2).isSome = true :=
  (watering_cooldown.1 chThirsty (1/4) 31 rfl rfl (by norm_num [chThirsty])).2
    (by norm_num [chThirsty])

/-! Claim C3 - dormant channel -/

/-- C3.  Dormant channel: with `enabled = false`, `update()` returns the
channel unchanged and issues no dose, for every saturation and time. -/
theorem disabled_update_noop (ch : Channel) (sat now : ℚ)
    (h : ch.enabled = false) : ch.update sat now = (ch, none) := by
  unfold Channel.update
  simp [h]

/-- A concrete disabled channel, used as a witness input. -/
def chDisabled : Channel := { channel := 2, last_dose := 0 }

/-- Witness for C3: updating the disabled `chDisabled` at saturation 0
changes nothing. -/
theorem disabled_update_noop_witness :
    chDisabled.update 0 99 = (chDisabled, none) :=
  disabled_update_noop chDisabled 0 99 rfl

/-! Claim C10 - alarm only below water_level -/

/-- C10.  The alarm check is nested inside the watering branch: a tick can
raise the alarm only when `sat < water_level` also holds, so with
`water_level ≤ sat < alarm_level` the alarm is never raised. -/
theorem alarm_requires_watering_branch :
    (∀ (ch : Channel) (sat now : ℚ), ((ch.update sat now).1).alarm = true →
       ch.alarm = true ∨ sat < ch.water_level) ∧
    (∀ (ch : Channel) (sat now : ℚ), ch.alarm = false → ch.water_level ≤ sat →
       sat < ch.alarm_level → ((ch.update sat now).1).alarm = false) := by
  constructor
  · intro ch sat now h
    rw [update_fst_alarm] at h
    rcases ha : ch.alarm with _ | _
    · right
      rw [ha] at h
      simp at h
      exact h.2.1
    · left; rfl
  · intro ch sat now ha hw _
    rw [update_fst_alarm, ha]
    simp
    intro _ hlt
    exact absurd hlt (not_lt.mpr hw)

/-- A concrete enabled channel with `alarm_level > water_level`, used as a
witness input for C10. -/
def chGated : Channel :=
  { channel := 3, last_dose := 0, enabled := true, water_level := 1/2,
    alarm_level := 3/4 }

/-- Witness for C10: `chGated` at saturation 0.6 (above `water_level`
0.5 but below `alarm_level` 0.75) does not raise its alarm. -/
theorem alarm_requires_watering_branch_witness :
    ((chGated.update (3/5) 10).1).alarm = false :=
  alarm_requires_watering_branch.2 chGated (3/5) 10 rfl
    (by norm_num [chGated]) (by norm_num [chGated])

/-! Claim C4 - color endpoints -/

/-- Counterexample to C4 as stated: on the 4-color `bar_colours` palette,
`indicator_color` does NOT map 0 to the first color and 1 to the last.
(Because of the `value = 1.0 - value` inversion it maps 0 to the last
color and 1 to the first.) -/
theorem color_endpoints_counterexample :
    ¬ (indicator_color bar_colours 0 = bar_colours.headD (0, 0, 0) ∧
       indicator_color bar_colours 1 = bar_colours.getLastD (0, 0, 0)) := by
  intro h
  have h1 := h.1
  norm_num [indicator_color, bar_colours] at h1

/-- C4 amended: for any palette of 2 or more colors, `indicator_color`
maps input 0 to the LAST palette color and input 1 to the FIRST, because
the function first inverts the input (`value = 1.0 - value`). -/
theorem color_endpoints_swapped (r : List RGB) (_h : 2 ≤ r.length) :
    indicator_color r 0 = r.getLastD (0, 0, 0) ∧
    indicator_color r 1 = r.headD (0, 0, 0) := by
  constructor
  · unfold indicator_color
    norm_num
  · unfold indicator_color
    norm_num

/-- Witness for the amended C4 at the concrete `bar_colours` palette. -/
theorem color_endpoints_swapped_witness :
    indicator_color bar_colours 0 = bar_colours.getLastD (0, 0, 0) ∧
    indicator_color bar_colours 1 = bar_colours.headD (0, 0, 0) :=
  color_endpoints_swapped bar_colours (by norm_num [bar_colours])

/-! Claim C5 - interior interpolation -/

/-- Counterexample to C5 as stated: at `value = 5/6` (inverted value
`1/6 ∈ (0,1)`, blend `1/2` between the first two `bar_colours`), the
source's `int()` truncation gives blue component 231 where the claim's
`round(lerp(...))` gives 232. -/
theorem interior_round_counterexample :
    (0 < 1 - (5/6 : ℚ) ∧ 1 - (5/6 : ℚ) < 1) ∧
    indicator_color bar_colours (5/6) ≠
      indicator_color_rounded bar_colours (5/6) := by
  constructor
  · norm_num
  · norm_num [indicator_color, indicator_color_rounded, bar_colours, pyInt,
      round_eq]

/-- C5 amended: for every value whose inverted value `v = 1 - value` lies
strictly between 0 and 1, `indicator_color` scales `v` into
`[0, len(r) - 1]`, floors to get the lower index `a`, blends toward
`a + 1` by the fractional remainder, and truncates each interpolated
component with `int()` (not `round`); being a function of its arguments,
it is pure and deterministic. -/
theorem interior_interpolation (r : List RGB) (value : ℚ)
    (h0 : 0 < 1 - value) (h1 : 1 - value < 1) :
    indicator_color r value = indicator_color_interior r value := by
  unfold indicator_color indicator_color_interior
  rw [if_neg (by intro h; rw [h] at h1; exact absurd h1 (lt_irrefl 1)),
    if_neg (by intro h; rw [h] at h0; exact absurd h0 (lt_irrefl 0))]

/-- Witness for the amended C5 at `value = 5/6` on `bar_colours`. -/
theorem interior_interpolation_witness :
    indicator_color bar_colours (5/6) =
      indicator_color_interior bar_colours (5/6) :=
  interior_interpolation bar_colours (5/6) (by norm_num) (by norm_num)

/-! Claim C6 - navigation bounds invariant -/

/-- Every index has a view with at least one sub-view: in-range indices
hit `MainView` (1) or a detail/edit pair (2), out-of-range indices hit
the `getD` default. -/
theorem subviewCount_pos (i : ℕ) :
    0 < subviewCount (views.getD i ViewT.single) := by
  match i with
  | 0 => decide
  | 1 => decide
  | 2 => decide
  | 3 => decide
  | n + 4 =>
    have h : views.getD (n + 4) ViewT.single = ViewT.single := by
      simp [views, List.getD]
    rw [h]
    decide

/-- One button event preserves the navigation bounds invariant. -/
theorem navOK_handle_button (st : AppState) (l : Label) (h : NavOK st) :
    NavOK (handle_button st l) := by
  obtain ⟨hv, hs⟩ := h
  cases l with
  | A =>
    by_cases h0 : st.current_subview = 0
    · simp only [handle_button, if_pos h0]
      exact ⟨Nat.mod_lt _ (by decide), subviewCount_pos _⟩
    · simp only [handle_button, if_neg h0]
      exact ⟨hv, hs⟩
  | B => exact ⟨hv, hs⟩
  | X =>
    simp only [handle_button]
    cases hview : views.getD st.current_view ViewT.single with
    | single => exact ⟨hv, hs⟩
    | paged n =>
      rw [hview] at hs
      refine ⟨hv, ?_⟩
      simp only [hview]
      exact Nat.mod_lt _ (Nat.lt_of_le_of_lt (Nat.zero_le _) hs)
  | Y => exact ⟨hv, hs⟩

/-- C6.  Navigation bounds invariant: starting from the initial state
(`current_view = 0`, `current_subview = 0`), any sequence of button
events leaves `current_view` within `views` and `current_subview` within
the current view's sub-view count. -/
theorem nav_bounds (chs : List Channel) (labels : List Label) :
    NavOK (labels.foldl handle_button { channels := chs }) := by
  have init : NavOK ({ channels := chs } : AppState) := by
    constructor
    · show (0 : ℕ) < views.length
      decide
    · show (0 : ℕ) < subviewCount (views.getD 0 ViewT.single)
      decide
  have fold : ∀ (ls : List Label) (st : AppState), NavOK st →
      NavOK (ls.foldl handle_button st) := by
    intro ls
    induction ls with
    | nil => intro st h; exact h
    | cons l ls ih => intro st h; exact ih _ (navOK_handle_button st l h)
  exact fold labels _ init

/-! Claim C7 - Next-view gating and wraparound -/

/-- C7.  The `A` (Next) button changes the view only when
`current_subview = 0`, advancing it by one modulo `len(views)` and
keeping `current_subview` at 0 — so Next on the last view index wraps to
0 — and is the identity when `current_subview ≠ 0`. -/
theorem next_gating (st : AppState) :
    (st.current_subview = 0 →
       (handle_button st Label.A).current_view =
         (st.current_view + 1) % views.length ∧
       (handle_button st Label.A).current_subview = 0) ∧
    (st.current_subview ≠ 0 → handle_button st Label.A = st) ∧
    (st.current_subview = 0 → st.current_view + 1 = views.length →
       (handle_button st Label.A).current_view = 0) := by
  refine ⟨?_, ?_, ?_⟩
  · intro h0
    simp [handle_button, if_pos h0]
  · intro h0
    simp [handle_button, if_neg h0]
  · intro h0 hlast
    simp [handle_button, if_pos h0, hlast]

/-- Witness for C7: pressing Next on the last view (index 3, sub-view 0)
wraps back to view 0. -/
theorem next_gating_witness :
    (handle_button { current_view := 3, channels := [] } Label.A).current_view
      = 0 :=
  (next_gating { current_view := 3, channels := [] }).2.2 rfl (by decide)

/-! Claim C8 - Acknowledge effect and frame -/

/-- C8.  The `B` (Acknowledge) button clears the `alarm` flag of every
channel unconditionally, and no button event changes any channel's
configuration or identity fields (everything except `alarm`). -/
theorem acknowledge_frame :
    (∀ st : AppState, ∀ ch ∈ (handle_button st Label.B).channels,
       ch.alarm = false) ∧
    (∀ (st : AppState) (l : Label),
       ((handle_button st l).channels).map Channel.config =
         (st.channels).map Channel.config) := by
  constructor
  · intro st ch hch
    simp only [handle_button, List.mem_map] at hch
    obtain ⟨ch₀, -, rfl⟩ := hch
    rfl
  · intro st l
    cases l with
    | A =>
      simp only [handle_button]
      split_ifs <;> rfl
    | B =>
      simp only [handle_button, List.map_map]
      rfl
    | X =>
      simp only [handle_button]
      cases views.getD st.current_view ViewT.single <;> rfl
    | Y => rfl

/-- Witness for C8: acknowledging on a one-channel state clears that
channel's alarm. -/
theorem acknowledge_frame_witness :
    ({ chAlarmed with alarm := false } : Channel).alarm = false :=
  acknowledge_frame.1 { channels := [chAlarmed] } _ (by simp [handle_button])

/-! Claim C9 - configuration application -/

/-- C9.  `update_from_yml`: a `none` mapping changes nothing; with a
mapping, each recognized key present overwrites its field and each key
absent leaves the field's current value (`Option.getD`); identity and
runtime fields (`channel`, `last_dose`, `alarm`) are never touched; keys
the code does not look up are ignored (the result does not depend on
them), and no input raises an error (the function is total). -/
theorem config_application (ch : Channel) (c : YmlConfig) (ks : List String) :
    ch.update_from_yml none = ch ∧
    ((ch.update_from_yml (some c)).pump_speed = c.pump_speed.getD ch.pump_speed ∧
     (ch.update_from_yml (some c)).pump_time = c.pump_time.getD ch.pump_time ∧
     (ch.update_from_yml (some c)).alarm_level = c.alarm_level.getD ch.alarm_level ∧
     (ch.update_from_yml (some c)).water_level = c.water_level.getD ch.water_level ∧
     (ch.update_from_yml (some c)).watering_delay = c.watering_delay.getD ch.watering_delay ∧
     (ch.update_from_yml (some c)).auto_water = c.auto_water.getD ch.auto_water ∧
     (ch.update_from_yml (some c)).enabled = c.enabled.getD ch.enabled ∧
     (ch.update_from_yml (some c)).wet_point = c.wet_point.getD ch.wet_point ∧
     (ch.update_from_yml (some c)).dry_point = c.dry_point.getD ch.dry_point) ∧
    ((ch.update_from_yml (some c)).channel = ch.channel ∧
     (ch.update_from_yml (some c)).last_dose = ch.last_dose ∧
     (ch.update_from_yml (some c)).alarm = ch.alarm) ∧
    ch.update_from_yml (some { c with unknown := ks }) =
      ch.update_from_yml (some c) := by
  refine ⟨rfl, ⟨rfl, rfl, rfl, rfl, rfl, rfl, rfl, rfl, rfl⟩, ⟨rfl, rfl, rfl⟩, rfl⟩

end Monitor
